import Mathlib

/-!
Verification of `src/lightning_horovod/strategy.py` (`HorovodStrategy`), a thin
adapter between a training host and the Horovod collective backend.

The Python class is embedded shallowly: its mutable attributes become a
`StrategyState` record, each method becomes a pure function from a state (and
arguments) to an `Except`-wrapped result, and the backend calls a method issues
(`hvd.join`, `hvd.allreduce`, `hvd.allgather`, the two broadcasts) are recorded
in a trace list, in program order, so that "the error is raised before any
collective call" is expressible.  Learning rates are modelled as rationals.
Backend primitives themselves are external to the repository; where a claim
needs their semantics (the ordering of an allgather) the definition is marked
"Modelled from the spec".
-/

namespace LightningHorovod

/-- Device type: the code only branches on whether `root_device.type == "cuda"`. -/
inductive DeviceType
  | cuda
  | cpu
deriving DecidableEq, Repr

/-- A torch device, reduced to the only attribute the strategy reads. -/
structure Device where
  type : DeviceType
deriving DecidableEq, Repr

/-- A tensor: its shape (list of dimension sizes, `[]` for a 0-dim scalar
tensor) and its flattened data. -/
structure Tensor where
  shape : List ℕ
  data : List ℚ
deriving DecidableEq, Repr

/-- A Python value handed to `reduce`: an actual tensor, or a non-tensor
(scalar number or other object), since `reduce` accepts `Union[Any, Tensor]`. -/
inductive Value
  | tensor (t : Tensor)
  | scalar (q : ℚ)
  | obj (s : String)
deriving DecidableEq, Repr

/-- One optimizer parameter group: the `"lr"` entry and the `"params"` entry
(parameters identified by id). -/
structure ParamGroup where
  lr : ℚ
  params : List ℕ
deriving DecidableEq, Repr

/-- An optimizer object: either an ordinary torch optimizer (identified by its
class string and its parameter groups), or a Horovod `DistributedOptimizer`
produced by `hvd.DistributedOptimizer(opt, backward_passes_per_step,
named_parameters)`, which wraps an inner optimizer and delegates its parameter
groups to it. -/
inductive Optimizer
  | base (classStr : String) (groups : List ParamGroup)
  | distributed (inner : Optimizer) (backwardPassesPerStep : ℕ)
      (namedParameters : List (String × ℕ))
deriving DecidableEq, Repr

/-- Modelled from the spec: `str(opt.__class__)` for a Horovod
`DistributedOptimizer` — the backend's optimizer-decoration class lives in the
`horovod` package, so its class string contains the substring `"horovod"`
(the design notes call this "runtime class-name string inspection to detect
'is this optimizer already backend-native'"). -/
def hvdDistributedOptimizerClassStr : String :=
  "<class 'horovod.torch.optimizer._DistributedOptimizer'>"

/-- `str(opt.__class__)`. -/
def Optimizer.classStr : Optimizer → String
  | .base c _ => c
  | .distributed _ _ _ => hvdDistributedOptimizerClassStr

/-- `opt.param_groups` (a `DistributedOptimizer` delegates to the wrapped
optimizer). -/
def Optimizer.paramGroups : Optimizer → List ParamGroup
  | .base _ gs => gs
  | .distributed inner _ _ => inner.paramGroups

/-- Whether `pat` occurs at the very start of `s` (character lists). -/
def beginsWith : List Char → List Char → Bool
  | [], _ => true
  | _ :: _, [] => false
  | p :: ps, c :: cs => p = c && beginsWith ps cs

/-- Whether `pat` occurs as a contiguous run somewhere in `s`. -/
def hasSub (pat : List Char) : List Char → Bool
  | [] => beginsWith pat []
  | c :: cs => beginsWith pat (c :: cs) || hasSub pat cs

/-- Python `"horovod" in s` (substring containment). -/
def containsHorovod (s : String) : Bool :=
  hasSub "horovod".toList s.toList

/-- An optimizer as held by the host: either raw, or wrapped in a
`LightningOptimizer` whose `_optimizer` attribute is the raw one. -/
inductive HostOptimizer
  | plain (opt : Optimizer)
  | lightningOpt (opt : Optimizer)
deriving DecidableEq, Repr

/-- `_unpack_lightning_optimizer` (strategy.py lines 125-126): return
`opt._optimizer` if it is a `LightningOptimizer`, else `opt` itself. -/
def unpackLightningOptimizer : HostOptimizer → Optimizer
  | .plain opt => opt
  | .lightningOpt opt => opt

/-- A learning-rate scheduler: `base_lrs` is `some l` iff
`hasattr(scheduler, "base_lrs")` holds with value `l`; `rest` stands for all
other scheduler state, which the strategy never touches. -/
structure Scheduler where
  base_lrs : Option (List ℚ)
  rest : ℕ
deriving DecidableEq, Repr

/-- A process-group value distinct from Python `None`: the distinguished world
group constant `dist_group.WORLD`, or some genuine sub-group. -/
inductive ProcessGroup
  | world
  | sub (id : ℕ)
deriving DecidableEq, Repr

/-- The `reduce_op` argument: Python `None`, a string, or the `ReduceOp.SUM`
constant. -/
inductive ReduceOpArg
  | noneOp
  | str (s : String)
  | sumConst
deriving DecidableEq, Repr

/-- The Horovod reduction op constants `hvd.Average` and `hvd.Sum`. -/
inductive HvdOp
  | average
  | sum
deriving DecidableEq, Repr

/-- A call issued to the Horovod backend, in program order. -/
inductive BackendCall
  | join (localRank : Option ℕ)
  | allreduce (v : Value) (op : HvdOp)
  | allgather (t : Tensor)
  | broadcastParameters
  | broadcastOptimizerState
deriving DecidableEq, Repr

/-- Errors the strategy's own code can raise: `ValueError` (the
invalid-configuration errors of `reduce`/`all_gather`), a failed `assert`,
or an out-of-range list index in `parallel_devices[local_rank]`. -/
inductive AdapterError
  | valueError (msg : String)
  | assertionError
  | indexError
deriving DecidableEq, Repr

/-- The mutable/queried state of a `HorovodStrategy` instance:
`parallel_devices` (optional, as in the constructor), the backend-reported
`local_rank` and `world_size`, the `_exit_stack` handle (`some cs` once an
`ExitStack` exists, holding the indices of the `skip_synchronize` contexts
entered into it), the host's optimizers and scheduler configs, and the
lightning module's named parameters (`none` models `lightning_module is None`). -/
structure StrategyState where
  parallelDevices : Option (List Device)
  localRank : ℕ
  worldSize : ℕ
  exitStack : Option (List ℕ)
  optimizers : List HostOptimizer
  lrSchedulers : List Scheduler
  lightningModule : Option (List (String × ℕ))
deriving DecidableEq, Repr

/-- `root_device` (strategy.py lines 99-102): `assert isinstance(
self.parallel_devices, list)` then `self.parallel_devices[self.local_rank]`. -/
def rootDevice (s : StrategyState) : Except AdapterError Device :=
  match s.parallelDevices with
  | none => .error .assertionError
  | some ds =>
    match ds.get? s.localRank with
    | none => .error .indexError
    | some d => .ok d

/-- `join` (strategy.py lines 169-173): `hvd.join(self.local_rank)` on a cuda
root device, `hvd.join()` otherwise; returns the backend calls issued. -/
def joinCalls (s : StrategyState) : Except AdapterError (List BackendCall) :=
  match rootDevice s with
  | .error e => .error e
  | .ok d =>
    if d.type = DeviceType.cuda then .ok [BackendCall.join (some s.localRank)]
    else .ok [BackendCall.join none]

/-- The `reduce_op` dispatch of `reduce` (strategy.py lines 195-200):
`None`/`"avg"`/`"mean"` select `hvd.Average`, `"sum"`/`ReduceOp.SUM` select
`hvd.Sum`, anything else raises `ValueError`. -/
def parseReduceOp : ReduceOpArg → Except AdapterError HvdOp
  | .noneOp => .ok .average
  | .str s =>
    if s = "avg" ∨ s = "mean" then .ok .average
    else if s = "sum" then .ok .sum
    else .error (.valueError "unrecognized reduce_op")
  | .sumConst => .ok .sum

/-- The value `reduce` returns on success: the (opaque) result of the backend
primitive `hvd.allreduce(tensor, op=reduce_op)` applied to the given value.
The strategy itself never short-circuits: whatever value it was given is
handed to the backend. -/
inductive ReduceResult
  | allreduced (v : Value) (op : HvdOp)
deriving DecidableEq, Repr

/-- Default of the `group` parameter of `reduce` (strategy.py line 178). -/
def reduceDefaultGroup : Option ProcessGroup := none

/-- Default of the `group` parameter of `all_gather` (strategy.py line 206):
`dist_group.WORLD`. -/
def allGatherDefaultGroup : Option ProcessGroup := some ProcessGroup.world

/-- `reduce` (strategy.py lines 175-204).  Returns the backend calls issued in
program order, paired with the outcome.  `group is not None` raises first;
then the `reduce_op` dispatch; then `self.join()`; then
`hvd.allreduce(tensor, op=reduce_op)`. -/
def reduce (s : StrategyState) (value : Value) (group : Option ProcessGroup)
    (reduceOp : ReduceOpArg) :
    List BackendCall × Except AdapterError ReduceResult :=
  if group ≠ none then
    ([], .error (.valueError
      "Horovod does not support allreduce using a subcommunicator at this time. Unset group."))
  else
    match parseReduceOp reduceOp with
    | .error e => ([], .error e)
    | .ok op =>
      match joinCalls s with
      | .error e => ([], .error e)
      | .ok js => (js ++ [BackendCall.allreduce value op],
                   .ok (ReduceResult.allreduced value op))

/-- The reshape step of `all_gather` (strategy.py lines 210-212): a tensor
with `len(result.shape) == 0` is reshaped to a single-dimension tensor
`result.reshape(1)`; all other tensors are passed on unchanged. -/
def gatherInput (t : Tensor) : Tensor :=
  if t.shape.length = 0 then { shape := [1], data := t.data } else t

/-- The value `all_gather` returns on success: the (opaque) result of the
backend primitive `hvd.allgather` applied to the (possibly reshaped) tensor
this rank contributes. -/
inductive GatherResult
  | allgathered (t : Tensor)
deriving DecidableEq, Repr

/-- `all_gather` (strategy.py lines 206-216).  Raises if a group other than
`None` or `dist_group.WORLD` is requested; otherwise reshapes 0-dim tensors,
calls `self.join()`, then `hvd.allgather(result)`. -/
def all_gather (s : StrategyState) (result : Tensor)
    (group : Option ProcessGroup) :
    List BackendCall × Except AdapterError GatherResult :=
  if group ≠ none ∧ group ≠ some ProcessGroup.world then
    ([], .error (.valueError
      "Horovod does not support allgather using a subcommunicator at this time. Unset group."))
  else
    let result := gatherInput result
    match joinCalls s with
    | .error e => ([], .error e)
    | .ok js => (js ++ [BackendCall.allgather result],
                 .ok (GatherResult.allgathered result))

/-- Modelled from the spec: the backend `allgather` primitive "collects one
value per process and returns the full ordered collection to every process"
(glossary), ordered by ascending global rank.  Its input here is the list of
per-rank contributed tensors, indexed by global rank; its result is that
ordered collection. -/
def hvdAllgatherGroup (contributions : List Tensor) : List Tensor :=
  contributions

/-- The whole-group result of `all_gather`: every rank `r` of the group calls
`all_gather` on its own tensor `inputs[r]` (the group check being identical on
every rank), so rank `r` contributes `gatherInput inputs[r]` to the backend
primitive, and the gathered sequence is the ordered collection of those
contributions. -/
def allGatherGroup (inputs : List Tensor) : List Tensor :=
  hvdAllgatherGroup (inputs.map gatherInput)

/-- `_filter_named_parameters` (strategy.py lines 239-242): the model's named
parameters restricted to those appearing in some parameter group of the
optimizer. -/
def filterNamedParameters (model : List (String × ℕ)) (opt : Optimizer) :
    List (String × ℕ) :=
  model.filter (fun np => opt.paramGroups.any (fun g => g.params.contains np.2))

/-- The per-optimizer body of the list comprehension in `_wrap_optimizers`
(strategy.py lines 228-237): wrap in `hvd.DistributedOptimizer` unless
`"horovod"` occurs in `str(opt.__class__)`, in which case keep the optimizer
as is. -/
def wrapSingleOptimizer (model : List (String × ℕ)) (accum : ℕ)
    (opt : Optimizer) : Optimizer :=
  if containsHorovod opt.classStr then opt
  else Optimizer.distributed opt accum (filterNamedParameters model opt)

/-- `_wrap_optimizers` (strategy.py lines 223-237): `assert
self.lightning_module is not None`, then map the wrap step over the list. -/
def wrapOptimizers (s : StrategyState) (opts : List Optimizer) (accum : ℕ) :
    Except AdapterError (List Optimizer) :=
  match s.lightningModule with
  | none => .error .assertionError
  | some model => .ok (opts.map (wrapSingleOptimizer model accum))

/-- The learning-rate scaling of `setup` (strategy.py lines 133-135):
`param_group["lr"] *= self.world_size` for every parameter group of every
optimizer (mutating the wrapped optimizer's groups when applied through a
wrapper). -/
def scaleOptimizer (w : ℕ) : Optimizer → Optimizer
  | .base c gs => .base c (gs.map (fun g => { g with lr := g.lr * (w : ℚ) }))
  | .distributed inner b n => .distributed (scaleOptimizer w inner) b n

/-- The scheduler adjustment of `setup` (strategy.py lines 139-142): if the
scheduler has a `base_lrs` attribute, replace it by
`[lr * self.world_size for lr in scheduler.base_lrs]`; otherwise leave the
scheduler untouched. -/
def scaleScheduler (w : ℕ) (sch : Scheduler) : Scheduler :=
  match sch.base_lrs with
  | some l => { sch with base_lrs := some (l.map (fun lr => lr * (w : ℚ))) }
  | none => sch

/-- `setup` (strategy.py lines 113-153), for a trainer whose `training` flag
is given.  In order: `model_to_device` (reads `root_device`, asserts
`self.model is not None`), `super().setup(trainer)` (host-side, no backend
effect), create and enter the `ExitStack`; early return if not training;
unpack `LightningOptimizer` wrappers; scale learning rates by `world_size`;
scale scheduler `base_lrs`; `assert self.lightning_module is not None`;
broadcast parameters and each optimizer's state from rank 0; wrap the
optimizers and store them back into `self.optimizers`; enter one
`skip_synchronize` context per wrapped optimizer into the exit stack.
Returns the post-state and the backend calls issued. -/
def setup (s : StrategyState) (training : Bool) (accum : ℕ) :
    Except AdapterError (StrategyState × List BackendCall) :=
  match rootDevice s with
  | .error e => .error e
  | .ok _ =>
    match s.lightningModule with
    | none => .error .assertionError
    | some model =>
      let s1 : StrategyState := { s with exitStack := some [] }
      if ¬ training then .ok (s1, [])
      else
        let optimizers := s1.optimizers.map unpackLightningOptimizer
        let optimizers := optimizers.map (scaleOptimizer s1.worldSize)
        let s2 : StrategyState :=
          { s1 with lrSchedulers :=
              s1.lrSchedulers.map (scaleScheduler s1.worldSize) }
        let calls := BackendCall.broadcastParameters ::
          optimizers.map (fun _ => BackendCall.broadcastOptimizerState)
        let wrapped := optimizers.map (wrapSingleOptimizer model accum)
        let s3 : StrategyState :=
          { s2 with optimizers := wrapped.map HostOptimizer.plain,
                    exitStack := some (List.range wrapped.length) }
        .ok (s3, calls)

/-- `teardown` (strategy.py lines 253-260): if `self._exit_stack` is truthy,
exit it and set the handle to `None`; then `self.join()`; then the host-side
`super().teardown()`.  Returns the post-state, whether the exit stack was
closed by this call, and the backend calls issued. -/
def teardown (s : StrategyState) :
    Except AdapterError (StrategyState × Bool × List BackendCall) :=
  match joinCalls { s with exitStack := none } with
  | .error e => .error e
  | .ok js => .ok ({ s with exitStack := none }, s.exitStack.isSome, js)

/-- The recognized `reduce_op` tokens, per the spec: `{mean, avg, sum, None}`
with the `ReduceOp.SUM` constant also accepted. -/
def recognizedReduceOp : ReduceOpArg → Bool
  | .noneOp => true
  | .str s => s = "avg" || s = "mean" || s = "sum"
  | .sumConst => true

/-- A concrete strategy state used to instantiate theorems: one cpu device,
rank 0 of a world of 4, one `LightningOptimizer`-wrapped SGD optimizer with
learning rate 1/10, one scheduler with `base_lrs` and one without. -/
def sampleState : StrategyState :=
  { parallelDevices := some [{ type := DeviceType.cpu }]
    localRank := 0
    worldSize := 4
    exitStack := none
    optimizers := [HostOptimizer.lightningOpt
      (Optimizer.base "SGD" [{ lr := 1/10, params := [0] }])]
    lrSchedulers := [{ base_lrs := some [1/10], rest := 7 },
                     { base_lrs := none, rest := 3 }]
    lightningModule := some [("weight", 0), ("bias", 1)] }

/-- The state `setup sampleState true 1` produces. -/
def sampleAfterSetup : StrategyState :=
  { sampleState with
      exitStack := some [0]
      optimizers := [HostOptimizer.plain (Optimizer.distributed
        (Optimizer.base "SGD" [{ lr := 2/5, params := [0] }]) 1 [("weight", 0)])]
      lrSchedulers := [{ base_lrs := some [2/5], rest := 7 },
                       { base_lrs := none, rest := 3 }] }

/-- The backend calls `setup sampleState true 1` issues. -/
def sampleSetupCalls : List BackendCall :=
  [BackendCall.broadcastParameters, BackendCall.broadcastOptimizerState]

/-- A minimal well-formed state: one cpu device, rank 0, no optimizers. -/
def cpuState : StrategyState :=
  { parallelDevices := some [{ type := DeviceType.cpu }]
    localRank := 0
    worldSize := 2
    exitStack := none
    optimizers := []
    lrSchedulers := []
    lightningModule := some [] }

/-- A freshly constructed strategy with no `parallel_devices` attached:
`HorovodStrategy(parallel_devices=None)`, before any setup. -/
def bareState : StrategyState :=
  { parallelDevices := none
    localRank := 0
    worldSize := 1
    exitStack := none
    optimizers := []
    lrSchedulers := []
    lightningModule := none }

/-- The state left behind by `teardown sampleAfterSetup`. -/
def sampleAfterTeardown : StrategyState :=
  { sampleAfterSetup with exitStack := none }

/-- A plain SGD optimizer used for the wrapping examples. -/
def sgdOptimizer : Optimizer :=
  Optimizer.base "SGD" [{ lr := 1, params := [0] }]

/-- `sgdOptimizer` after one pass of the wrap step with `cpuState`'s (empty)
module and `accumulate_grad_batches = 1`. -/
def wrappedSgd : Optimizer :=
  Optimizer.distributed sgdOptimizer 1 []

/-! Helper lemmas shared by the claim theorems. -/

theorem containsHorovod_hvdClassStr :
    containsHorovod hvdDistributedOptimizerClassStr = true := by decide

theorem joinCalls_ok (s : StrategyState) (ds : List Device)
    (hd : s.parallelDevices = some ds) (hr : s.localRank < ds.length) :
    ∃ js, joinCalls s = .ok js := by
  obtain ⟨d, hg⟩ : ∃ d, ds[s.localRank]? = some d :=
    ⟨_, List.getElem?_eq_getElem hr⟩
  have hdev : rootDevice s = .ok d := by
    simp [rootDevice, hd, List.get?_eq_getElem?, hg]
  by_cases hc : d.type = DeviceType.cuda
  · exact ⟨[BackendCall.join (some s.localRank)], by simp [joinCalls, hdev, hc]⟩
  · exact ⟨[BackendCall.join none], by simp [joinCalls, hdev, hc]⟩

theorem joinCalls_shape (s : StrategyState) (js : List BackendCall)
    (h : joinCalls s = .ok js) : ∃ r, js = [BackendCall.join r] := by
  unfold joinCalls at h
  cases hdev : rootDevice s with
  | error e => rw [hdev] at h; simp at h
  | ok d =>
    rw [hdev] at h
    by_cases hc : d.type = DeviceType.cuda
    · simp [hc] at h
      exact ⟨some s.localRank, h.symm⟩
    · simp [hc] at h
      exact ⟨none, h.symm⟩

theorem paramGroups_scaleOptimizer (w : ℕ) (o : Optimizer) :
    (scaleOptimizer w o).paramGroups
      = o.paramGroups.map (fun g => { g with lr := g.lr * (w : ℚ) }) := by
  induction o with
  | base c gs => rfl
  | distributed inner b n ih =>
      simpa [scaleOptimizer, Optimizer.paramGroups] using ih

theorem paramGroups_wrapSingleOptimizer (model : List (String × ℕ)) (accum : ℕ)
    (o : Optimizer) :
    (wrapSingleOptimizer model accum o).paramGroups = o.paramGroups := by
  unfold wrapSingleOptimizer
  split
  · rfl
  · rfl

theorem setup_true_ok_elim (s : StrategyState) (accum : ℕ) (s' : StrategyState)
    (tr : List BackendCall) (h : setup s true accum = .ok (s', tr)) :
    ∃ model, s.lightningModule = some model ∧
      s' = { s with
        lrSchedulers := s.lrSchedulers.map (scaleScheduler s.worldSize),
        optimizers :=
          (((s.optimizers.map unpackLightningOptimizer).map
              (scaleOptimizer s.worldSize)).map
            (wrapSingleOptimizer model accum)).map HostOptimizer.plain,
        exitStack := some (List.range
          (((s.optimizers.map unpackLightningOptimizer).map
              (scaleOptimizer s.worldSize)).map
            (wrapSingleOptimizer model accum)).length) } := by
  unfold setup at h
  cases hdev : rootDevice s with
  | error e => rw [hdev] at h; simp at h
  | ok d =>
    rw [hdev] at h
    cases hm : s.lightningModule with
    | none => rw [hm] at h; simp at h
    | some model =>
      rw [hm] at h
      simp at h
      refine ⟨model, rfl, ?_⟩
      rw [← h.1]
      simp [List.map_map, Function.comp]

theorem sampleState_setup_eq :
    setup sampleState true 1 = .ok (sampleAfterSetup, sampleSetupCalls) := by
  simp +decide [setup, sampleState, rootDevice, sampleAfterSetup,
    sampleSetupCalls, scaleScheduler, wrapSingleOptimizer, containsHorovod,
    scaleOptimizer, unpackLightningOptimizer, filterNamedParameters,
    Optimizer.paramGroups, Optimizer.classStr]
  norm_num

/-- C1: For every world size W >= 1, after setup is invoked with a trainer in
training mode, every parameter group of every (unwrapped) optimizer has its
learning rate equal to its pre-setup value multiplied by W. -/
theorem setup_scales_learning_rates (s : StrategyState) (accum : ℕ)
    (hW : 1 ≤ s.worldSize) (s' : StrategyState) (tr : List BackendCall)
    (h : setup s true accum = .ok (s', tr)) :
    s'.optimizers.map
        (fun ho => (unpackLightningOptimizer ho).paramGroups.map ParamGroup.lr)
      = s.optimizers.map
        (fun ho => (unpackLightningOptimizer ho).paramGroups.map
          (fun g => g.lr * (s.worldSize : ℚ))) := by
  obtain ⟨model, hm, hs'⟩ := setup_true_ok_elim s accum s' tr h
  subst hs'
  simp [List.map_map, Function.comp, unpackLightningOptimizer,
    paramGroups_wrapSingleOptimizer, paramGroups_scaleOptimizer]

/-- Witness for C1 at `sampleState`: world size 4, pre-setup learning rate
1/10, post-setup learning rate 2/5. -/
theorem setup_scales_learning_rates_witness :
    sampleAfterSetup.optimizers.map
        (fun ho => (unpackLightningOptimizer ho).paramGroups.map ParamGroup.lr)
      = sampleState.optimizers.map
        (fun ho => (unpackLightningOptimizer ho).paramGroups.map
          (fun g => g.lr * (sampleState.worldSize : ℚ))) :=
  setup_scales_learning_rates sampleState 1 (by decide) sampleAfterSetup
    sampleSetupCalls sampleState_setup_eq

/-- C7: After setup with a trainer in training mode and world size W, every
learning-rate scheduler that exposes a base-learning-rate list has each entry
of that list equal to its pre-setup value multiplied by W; schedulers not
exposing such a list are left unchanged. -/
theorem setup_scales_scheduler_base_lrs (s : StrategyState) (accum : ℕ)
    (hW : 1 ≤ s.worldSize) (s' : StrategyState) (tr : List BackendCall)
    (h : setup s true accum = .ok (s', tr)) :
    s'.lrSchedulers = s.lrSchedulers.map (scaleScheduler s.worldSize) ∧
    (∀ sch : Scheduler, sch.base_lrs = none →
        scaleScheduler s.worldSize sch = sch) ∧
    (∀ (sch : Scheduler) (l : List ℚ), sch.base_lrs = some l →
        scaleScheduler s.worldSize sch
          = { sch with
                base_lrs := some (l.map (fun lr => lr * (s.worldSize : ℚ))) }) := by
  obtain ⟨model, hm, hs'⟩ := setup_true_ok_elim s accum s' tr h
  subst hs'
  refine ⟨rfl, ?_, ?_⟩
  · intro sch hnone
    simp [scaleScheduler, hnone]
  · intro sch l hsome
    simp [scaleScheduler, hsome]

/-- Witness for C7 at `sampleState`: the scheduler with `base_lrs = [1/10]`
ends with `base_lrs = [2/5]` and the one without `base_lrs` is untouched. -/
theorem setup_scales_scheduler_base_lrs_witness :
    sampleAfterSetup.lrSchedulers
      = sampleState.lrSchedulers.map (scaleScheduler sampleState.worldSize) :=
  (setup_scales_scheduler_base_lrs sampleState 1 (by decide) sampleAfterSetup
    sampleSetupCalls sampleState_setup_eq).1

/-- C10: setup always creates and enters the deferred-synchronization scope
before checking whether the trainer is in training mode, so after any
completed setup call — training or not — the scope handle is non-None;
teardown closes the scope and resets the handle to None, so a second teardown
closes it at most once. -/
theorem exit_stack_lifecycle :
    (∀ (s : StrategyState) (training : Bool) (accum : ℕ)
        (s' : StrategyState) (tr : List BackendCall),
        setup s training accum = .ok (s', tr) → s'.exitStack.isSome = true) ∧
    (∀ (s s' : StrategyState) (c : Bool) (js : List BackendCall),
        teardown s = .ok (s', c, js) →
        s'.exitStack = none ∧ c = s.exitStack.isSome ∧
        ∀ (s'' : StrategyState) (c' : Bool) (js' : List BackendCall),
          teardown s' = .ok (s'', c', js') → c' = false) := by
  constructor
  · intro s training accum s' tr h
    unfold setup at h
    cases hdev : rootDevice s with
    | error e => rw [hdev] at h; simp at h
    | ok d =>
      rw [hdev] at h
      cases hm : s.lightningModule with
      | none => rw [hm] at h; simp at h
      | some model =>
        rw [hm] at h
        cases training with
        | false =>
            simp at h
            rw [← h.1]
            simp
        | true =>
            simp at h
            rw [← h.1]
            simp
  · intro s s' c js h
    unfold teardown at h
    cases hj : joinCalls { s with exitStack := none } with
    | error e => rw [hj] at h; simp at h
    | ok js0 =>
      rw [hj] at h
      simp at h
      obtain ⟨h1, h2, -⟩ := h
      refine ⟨by rw [← h1], h2.symm, ?_⟩
      intro s'' c' js' h'
      unfold teardown at h'
      cases hj' : joinCalls { s' with exitStack := none } with
      | error e => rw [hj'] at h'; simp at h'
      | ok js1 =>
        rw [hj'] at h'
        simp at h'
        rw [← h'.2.1, ← h1]
        simp

/-- Witness for C10: after `setup sampleState true 1` the exit-stack handle is
set, and after the subsequent teardown it is `None`. -/
theorem exit_stack_lifecycle_witness :
    sampleAfterSetup.exitStack.isSome = true ∧
    sampleAfterTeardown.exitStack = none :=
  ⟨exit_stack_lifecycle.1 sampleState true 1 sampleAfterSetup sampleSetupCalls
      sampleState_setup_eq,
   (exit_stack_lifecycle.2 sampleAfterSetup sampleAfterTeardown true
      [BackendCall.join none] (by rfl)).1⟩

/-- C2 counterexample: on a strategy constructed with
`parallel_devices=None` and never set up, `teardown` raises (the `assert
isinstance(self.parallel_devices, list)` in `root_device`, reached through
`self.join()`), so teardown without a prior setup CAN raise. -/
theorem teardown_without_setup_can_raise :
    bareState.exitStack = none ∧
    teardown bareState = .error AdapterError.assertionError := ⟨rfl, rfl⟩

/-- C2 (amended): provided `parallel_devices` is a list with an entry at
`local_rank` (what `root_device` requires), calling teardown when setup was
never invoked does not raise, and still performs the final group barrier
(`hvd.join`) before returning. -/
theorem teardown_without_setup_ok (s : StrategyState) (ds : List Device)
    (hst : s.exitStack = none) (hd : s.parallelDevices = some ds)
    (hr : s.localRank < ds.length) :
    ∃ r, teardown s
      = .ok ({ s with exitStack := none }, false, [BackendCall.join r]) := by
  obtain ⟨js, hjs⟩ := joinCalls_ok { s with exitStack := none } ds hd hr
  obtain ⟨r, hrr⟩ := joinCalls_shape { s with exitStack := none } js hjs
  refine ⟨r, ?_⟩
  unfold teardown
  rw [hjs, hst, hrr]
  rfl

/-- Witness for C2's amended theorem at `cpuState` (one cpu device, exit
stack never created). -/
theorem teardown_without_setup_ok_witness :
    ∃ r, teardown cpuState
      = .ok ({ cpuState with exitStack := none }, false, [BackendCall.join r]) :=
  teardown_without_setup_ok cpuState [{ type := DeviceType.cpu }] rfl rfl
    (by decide)

/-- C3: For every non-null group value that is not the world group,
`reduce(tensor, group=g)` and `all_gather(tensor, group=g)` each fail with the
invalid-configuration error, raised before any barrier or collective call is
issued (the backend-call trace on the error path is empty). -/
theorem subgroup_rejected_before_collectives (s : StrategyState) (v : Value)
    (t : Tensor) (op : ReduceOpArg) (g : ProcessGroup)
    (hg : g ≠ ProcessGroup.world) :
    reduce s v (some g) op
      = ([], .error (.valueError
          "Horovod does not support allreduce using a subcommunicator at this time. Unset group.")) ∧
    all_gather s t (some g)
      = ([], .error (.valueError
          "Horovod does not support allgather using a subcommunicator at this time. Unset group.")) := by
  constructor
  · simp [reduce]
  · simp [all_gather, hg]

/-- Witness for C3 at a genuine sub-group `sub 0`. -/
theorem subgroup_rejected_before_collectives_witness :
    reduce cpuState (Value.scalar 1) (some (ProcessGroup.sub 0))
        (ReduceOpArg.str "mean")
      = ([], .error (.valueError
          "Horovod does not support allreduce using a subcommunicator at this time. Unset group.")) ∧
    all_gather cpuState { shape := [1], data := [1] }
        (some (ProcessGroup.sub 0))
      = ([], .error (.valueError
          "Horovod does not support allgather using a subcommunicator at this time. Unset group.")) :=
  subgroup_rejected_before_collectives cpuState (Value.scalar 1)
    { shape := [1], data := [1] } (ReduceOpArg.str "mean")
    (ProcessGroup.sub 0) (by decide)

/-- C4: reduce raises the invalid-configuration error if and only if
`reduce_op` is a token outside the recognized set `{mean, avg, sum, None}`
(with the `ReduceOp.SUM` constant also accepted); `None`, `"avg"` and
`"mean"` select averaging and `"sum"` selects summation. -/
theorem reduce_op_validation (s : StrategyState) (v : Value) (ds : List Device)
    (hd : s.parallelDevices = some ds) (hr : s.localRank < ds.length) :
    (∀ op : ReduceOpArg,
        (∃ m, (reduce s v none op).2 = .error (.valueError m))
          ↔ recognizedReduceOp op = false) ∧
    (reduce s v none ReduceOpArg.noneOp).2
        = .ok (ReduceResult.allreduced v HvdOp.average) ∧
    (reduce s v none (ReduceOpArg.str "avg")).2
        = .ok (ReduceResult.allreduced v HvdOp.average) ∧
    (reduce s v none (ReduceOpArg.str "mean")).2
        = .ok (ReduceResult.allreduced v HvdOp.average) ∧
    (reduce s v none (ReduceOpArg.str "sum")).2
        = .ok (ReduceResult.allreduced v HvdOp.sum) ∧
    (reduce s v none ReduceOpArg.sumConst).2
        = .ok (ReduceResult.allreduced v HvdOp.sum) := by
  obtain ⟨js, hjs⟩ := joinCalls_ok s ds hd hr
  refine ⟨?_, ?_, ?_, ?_, ?_, ?_⟩
  · intro op
    cases op with
    | noneOp => simp [reduce, parseReduceOp, hjs, recognizedReduceOp]
    | sumConst => simp [reduce, parseReduceOp, hjs, recognizedReduceOp]
    | str st =>
        by_cases h1 : st = "avg"
        · simp [reduce, parseReduceOp, recognizedReduceOp, h1, hjs]
        · by_cases h2 : st = "mean"
          · simp [reduce, parseReduceOp, recognizedReduceOp, h1, h2, hjs]
          · by_cases h3 : st = "sum"
            · simp [reduce, parseReduceOp, recognizedReduceOp, h1, h2, h3, hjs]
            · simp [reduce, parseReduceOp, recognizedReduceOp, h1, h2, h3, hjs]
  · simp [reduce, parseReduceOp, hjs]
  · simp [reduce, parseReduceOp, hjs]
  · simp [reduce, parseReduceOp, hjs]
  · simp [reduce, parseReduceOp, hjs]
  · simp [reduce, parseReduceOp, hjs]

/-- Witness for C4 at `cpuState` and the unrecognized token `"median"`. -/
theorem reduce_op_validation_witness :
    (∃ m, (reduce cpuState (Value.tensor { shape := [1], data := [2] }) none
        (ReduceOpArg.str "median")).2 = .error (.valueError m))
      ↔ recognizedReduceOp (ReduceOpArg.str "median") = false :=
  (reduce_op_validation cpuState (Value.tensor { shape := [1], data := [2] })
      [{ type := DeviceType.cpu }] rfl (by decide)).1 (ReduceOpArg.str "median")

/-- C5: evaluating `reduce` at a non-tensor input (the scalar 3, default
group, recognized op `"mean"`): the strategy has no pass-through branch — the
non-tensor value is handed to the backend primitive `hvd.allreduce` (after the
barrier), and the result is that backend call's result, not the unchanged
input. -/
theorem reduce_forwards_nontensor_to_backend :
    reduce cpuState (Value.scalar 3) none (ReduceOpArg.str "mean")
      = ([BackendCall.join none,
          BackendCall.allreduce (Value.scalar 3) HvdOp.average],
         .ok (ReduceResult.allreduced (Value.scalar 3) HvdOp.average)) := rfl

/-- C6: Wrapping optimizers is idempotent: the wrap step returns an
already-backend-native optimizer (a Horovod `DistributedOptimizer`) unchanged,
and re-running `_wrap_optimizers` on its own output is the identity, so each
base optimizer has at most one wrapper. -/
theorem wrap_optimizers_idempotent (model : List (String × ℕ))
    (accum accum2 : ℕ) :
    (∀ (inner : Optimizer) (b : ℕ) (n : List (String × ℕ)),
        wrapSingleOptimizer model accum (Optimizer.distributed inner b n)
          = Optimizer.distributed inner b n) ∧
    (∀ (s : StrategyState) (opts res : List Optimizer),
        wrapOptimizers s opts accum = .ok res →
        wrapOptimizers s res accum2 = .ok res) := by
  constructor
  · intro inner b n
    simp [wrapSingleOptimizer, Optimizer.classStr, containsHorovod_hvdClassStr]
  · intro s opts res h
    unfold wrapOptimizers at h ⊢
    cases hm : s.lightningModule with
    | none => rw [hm] at h; simp at h
    | some m =>
        rw [hm] at h
        simp at h
        rw [← h]
        simp only [List.map_map]
        congr 1
        apply List.map_congr_left
        intro o ho
        simp only [Function.comp]
        by_cases hc : containsHorovod o.classStr = true
        · simp [wrapSingleOptimizer, hc]
        · have h1 : wrapSingleOptimizer m accum o
              = Optimizer.distributed o accum (filterNamedParameters m o) := by
            simp [wrapSingleOptimizer, hc]
          rw [h1]
          simp [wrapSingleOptimizer, Optimizer.classStr,
            containsHorovod_hvdClassStr]

/-- Witness for C6: re-wrapping the already-wrapped SGD optimizer (with a
different accumulation count) returns it unchanged. -/
theorem wrap_optimizers_idempotent_witness :
    wrapOptimizers cpuState [wrappedSgd] 2 = .ok [wrappedSgd] :=
  (wrap_optimizers_idempotent [] 1 2).2 cpuState [sgdOptimizer] [wrappedSgd]
    (by rfl)

/-- C8: all_gather applied to a 0-dimensional (scalar) tensor reshapes it to
one dimension before gathering, and across a group of W processes the
gathered result is a sequence of length W with one 1-dimensional entry per
rank, ordered by ascending global rank; tensors of dimension >= 1 are
gathered without reshaping. -/
theorem all_gather_scalar_reshape (s : StrategyState) (ds : List Device)
    (hd : s.parallelDevices = some ds) (hr : s.localRank < ds.length)
    (t : Tensor) (ht : t.shape = [])
    (inputs : List Tensor) (hin : ∀ u ∈ inputs, u.shape = []) :
    (∃ js, all_gather s t (some ProcessGroup.world)
        = (js ++ [BackendCall.allgather { shape := [1], data := t.data }],
           .ok (GatherResult.allgathered { shape := [1], data := t.data }))) ∧
    (allGatherGroup inputs).length = inputs.length ∧
    (∀ r, r < inputs.length →
        (allGatherGroup inputs).get? r
          = (inputs.get? r).map (fun u => { shape := [1], data := u.data })) ∧
    (∀ u : Tensor, 1 ≤ u.shape.length → gatherInput u = u) := by
  obtain ⟨js, hjs⟩ := joinCalls_ok s ds hd hr
  refine ⟨⟨js, ?_⟩, ?_, ?_, ?_⟩
  · unfold all_gather
    simp [gatherInput, ht, hjs]
  · simp [allGatherGroup, hvdAllgatherGroup]
  · intro r hrr
    simp only [allGatherGroup, hvdAllgatherGroup, List.get?_map]
    cases hu : inputs.get? r with
    | none => simp
    | some u =>
        have hmem : u ∈ inputs := List.get?_mem hu
        simp [gatherInput, hin u hmem]
  · intro u hu
    unfold gatherInput
    rw [if_neg]
    omega

/-- Witness for C8: two ranks, each holding a 0-dimensional tensor. -/
theorem all_gather_scalar_reshape_witness :
    (allGatherGroup [{ shape := [], data := [5] },
        { shape := [], data := [7] }]).length
      = ([{ shape := [], data := [5] },
          { shape := [], data := [7] }] : List Tensor).length :=
  (all_gather_scalar_reshape cpuState [{ type := DeviceType.cpu }] rfl
      (by decide) { shape := [], data := [5] } rfl
      [{ shape := [], data := [5] }, { shape := [], data := [7] }]
      (by
        intro u hu
        rw [List.mem_cons] at hu
        rcases hu with rfl | hu
        · rfl
        · rw [List.mem_singleton] at hu
          subst hu
          rfl)).2.1

/-- C9: the sub-group rejection condition differs between the two
collectives: `reduce` raises the invalid-configuration error for every
non-None group value, including the world-group constant itself (its default
being None), whereas `all_gather` accepts both None and the world-group
constant without error. -/
theorem group_check_asymmetry (s : StrategyState) (ds : List Device)
    (v : Value) (t : Tensor) (op : ReduceOpArg)
    (hd : s.parallelDevices = some ds) (hr : s.localRank < ds.length) :
    reduceDefaultGroup = none ∧
    allGatherDefaultGroup = some ProcessGroup.world ∧
    (∀ g : ProcessGroup, reduce s v (some g) op
        = ([], .error (.valueError
            "Horovod does not support allreduce using a subcommunicator at this time. Unset group."))) ∧
    (all_gather s t none).2 = .ok (GatherResult.allgathered (gatherInput t)) ∧
    (all_gather s t (some ProcessGroup.world)).2
      = .ok (GatherResult.allgathered (gatherInput t)) := by
  obtain ⟨js, hjs⟩ := joinCalls_ok s ds hd hr
  refine ⟨rfl, rfl, ?_, ?_, ?_⟩
  · intro g
    simp [reduce]
  · simp [all_gather, hjs]
  · simp [all_gather, hjs]

/-- Witness for C9: at `cpuState`, `reduce` with the world-group constant
errors while `all_gather` with the world-group constant succeeds. -/
theorem group_check_asymmetry_witness :
    reduce cpuState (Value.scalar 1) (some ProcessGroup.world)
        (ReduceOpArg.str "mean")
      = ([], .error (.valueError
          "Horovod does not support allreduce using a subcommunicator at this time. Unset group.")) ∧
    (all_gather cpuState { shape := [1], data := [1] }
        (some ProcessGroup.world)).2
      = .ok (GatherResult.allgathered
          (gatherInput { shape := [1], data := [1] })) :=
  ⟨(group_check_asymmetry cpuState [{ type := DeviceType.cpu }]
      (Value.scalar 1) { shape := [1], data := [1] } (ReduceOpArg.str "mean")
      rfl (by decide)).2.2.1 ProcessGroup.world,
   (group_check_asymmetry cpuState [{ type := DeviceType.cpu }]
      (Value.scalar 1) { shape := [1], data := [1] } (ReduceOpArg.str "mean")
      rfl (by decide)).2.2.2.2⟩

end LightningHorovod
